import Mathlib

/-!
Shallow embedding of the pig-logistics simulator
(`src/proyecto/src/models/{Farm,Slaughterhouse,Transport}.py`,
`src/proyecto/src/simulation/{Router,Simulator}.py`).

Python `float` fields are modelled as `ℚ`, `int` fields as `Int`.
Python `//` (floor division) is `Int.fdiv`; Python `int()` (truncation
toward zero) is `pyInt` below.  Mutating methods become functions from
the record to the updated record, returning the same tuple components
as the Python method.
-/

namespace Porcs

/-- Python `int(q)`: truncation of a rational toward zero. -/
def pyInt (q : ℚ) : Int := q.num.tdiv (q.den : Int)

/-! ### Farm (src/proyecto/src/models/Farm.py) -/

/-- State of `Farm`.  Field order and names follow the dataclass.
`age_weeks` is declared `int` in Python but is mutated with float
arithmetic in `update_growth`, hence `ℚ`. -/
structure Farm where
  farm_id : String
  name : String
  lat : ℚ
  lon : ℚ
  inventory_pigs : Int
  avg_weight_kg : ℚ
  growth_rate_kg_per_week : ℚ
  age_weeks : ℚ
  price_per_kg : ℚ
  consumption_pigs : ℚ
  capacity : Int
  pigs_delivered_week : Int := 0
  last_delivery_day : Int := -5
  weekly_inventory_history : List Int := []
  deriving Repr, DecidableEq

namespace Farm

/-- `Farm.get_current_weight`. -/
def get_current_weight (f : Farm) : ℚ := f.avg_weight_kg

/-- `Farm.update_growth`. -/
def update_growth (f : Farm) (days_passed : Int := 1) : Farm :=
  { f with
    avg_weight_kg := f.avg_weight_kg + (f.growth_rate_kg_per_week / 7) * days_passed
    age_weeks := f.age_weeks + (days_passed : ℚ) / 7 }

/-- `Farm.can_deliver_today`.  Python `//` is floor division (`Int.fdiv`). -/
def can_deliver_today (f : Farm) (current_day : Int) : Bool :=
  if f.inventory_pigs ≤ 0 then
    false
  else if f.last_delivery_day < 0 then
    true
  else
    Int.fdiv current_day 5 ≠ Int.fdiv f.last_delivery_day 5

/-- `Farm.deliver_pigs`: returns the Python return value paired with the
farm state after the call. -/
def deliver_pigs (f : Farm) (pigs_count : Int) (current_day : Int) : Bool × Farm :=
  if pigs_count ≤ 0 then
    (false, f)
  else if pigs_count > f.inventory_pigs then
    (false, f)
  else if ¬ f.can_deliver_today current_day then
    (false, f)
  else
    (true,
      { f with
        inventory_pigs := f.inventory_pigs - pigs_count
        pigs_delivered_week := f.pigs_delivered_week + pigs_count
        last_delivery_day := current_day
        weekly_inventory_history :=
          f.weekly_inventory_history ++ [f.inventory_pigs - pigs_count] })

/-- `Farm.reset_weekly_counter`. -/
def reset_weekly_counter (f : Farm) : Farm :=
  { f with pigs_delivered_week := 0 }

end Farm

/-! ### Slaughterhouse (src/proyecto/src/models/Slaughterhouse.py) -/

/-- One entry of `daily_history` (the `receipt_info` dict built in
`receive_pigs`; the constant `timestamp: None` entry is omitted). -/
structure Receipt where
  pigs_count : Int
  avg_weight_kg : ℚ
  total_kg_live : ℚ
  penalty_applied : ℚ
  revenue : ℚ
  deriving Repr, DecidableEq

/-- State of `Slaughterhouse`. -/
structure Slaughterhouse where
  slaughterhouse_id : String
  name : String
  lat : ℚ
  lon : ℚ
  capacity_per_day : Int
  price_per_kg : ℚ
  penalty_15_min : ℚ
  penalty_15_max : ℚ
  penalty_20_min : ℚ
  penalty_20_max : ℚ
  pigs_received_today : Int := 0
  total_weight_received : ℚ := 0
  daily_history : List Receipt := []
  deriving Repr, DecidableEq

namespace Slaughterhouse

/-- `Slaughterhouse.get_available_capacity`. -/
def get_available_capacity (s : Slaughterhouse) : Int :=
  max 0 (s.capacity_per_day - s.pigs_received_today)

/-- `Slaughterhouse.is_at_capacity`. -/
def is_at_capacity (s : Slaughterhouse) : Bool :=
  s.pigs_received_today ≥ s.capacity_per_day

/-- `Slaughterhouse.calculate_penalty`. -/
def calculate_penalty (s : Slaughterhouse) (avg_weight_kg : ℚ) : ℚ :=
  if avg_weight_kg < s.penalty_20_min ∨ avg_weight_kg > s.penalty_20_max then
    20 / 100
  else if avg_weight_kg < s.penalty_15_min ∨ avg_weight_kg > s.penalty_15_max then
    15 / 100
  else
    0

/-- `Slaughterhouse.receive_pigs`: returns `(success, receipt?, state after)`.
On the Python failure branch the dict holds only an error message, modelled
as `none`. -/
def receive_pigs (s : Slaughterhouse) (pigs_count : Int) (avg_weight_kg : ℚ) :
    Bool × Option Receipt × Slaughterhouse :=
  if s.is_at_capacity then
    (false, none, s)
  else
    let pigs_count :=
      if pigs_count > s.get_available_capacity then s.get_available_capacity
      else pigs_count
    let total_kg_live : ℚ := pigs_count * avg_weight_kg
    let penalty := s.calculate_penalty avg_weight_kg
    let revenue := total_kg_live * s.price_per_kg * (1 - penalty)
    let receipt_info : Receipt :=
      { pigs_count := pigs_count
        avg_weight_kg := avg_weight_kg
        total_kg_live := total_kg_live
        penalty_applied := penalty
        revenue := revenue }
    (true, some receipt_info,
      { s with
        pigs_received_today := s.pigs_received_today + pigs_count
        total_weight_received := s.total_weight_received + total_kg_live
        daily_history := s.daily_history ++ [receipt_info] })

/-- `Slaughterhouse.reset_daily_counter`.  Note: the Python body resets the
two counters only; `daily_history` is left untouched. -/
def reset_daily_counter (s : Slaughterhouse) : Slaughterhouse :=
  { s with
    pigs_received_today := 0
    total_weight_received := 0 }

end Slaughterhouse

/-! ### Transport (src/proyecto/src/models/Transport.py) -/

/-- `TransportStatus` enum. -/
inductive TransportStatus where
  | AVAILABLE
  | IN_TRANSIT
  | LOADING
  | FULL
  | MAINTENANCE
  deriving Repr, DecidableEq

/-- `Route` dataclass. -/
structure Route where
  route_id : String
  farms_visited : List String := []
  total_distance_km : ℚ := 0
  total_time_hours : ℚ := 0
  pigs_loaded : Int := 0
  current_load_kg : ℚ := 0
  trip_cost : ℚ := 0
  slaughterhouse_id : String := ""
  deriving Repr, DecidableEq

/-- State of `Transport`.  The Python attribute `type` is kept as a field
named `type`. -/
structure Transport where
  transport_id : String
  type : String
  capacity_tons : ℚ
  cost_per_km : ℚ
  max_hours_per_week : ℚ
  fixed_weekly_cost : ℚ
  current_load_kg : ℚ := 0
  pigs_aboard : Int := 0
  status : TransportStatus := TransportStatus.AVAILABLE
  current_route : Option Route := none
  hours_used_this_week : ℚ := 0
  routes_completed : List Route := []
  deriving Repr, DecidableEq

/-- The `route_info` dict returned by `Transport.complete_route`.
`capacity_utilized` is an f-string of the percentage in Python; the
underlying percentage value is kept here. -/
structure RouteInfo where
  route_id : String
  farms_visited : List String
  distance_km : ℚ
  time_hours : ℚ
  pigs_delivered : Int
  load_kg : ℚ
  cost : ℚ
  capacity_utilized_pct : ℚ
  deriving Repr, DecidableEq

namespace Transport

/-- `Transport.get_available_capacity_kg`. -/
def get_available_capacity_kg (t : Transport) : ℚ :=
  max 0 (t.capacity_tons * 1000 - t.current_load_kg)

/-- `Transport.get_available_capacity_pigs` (Python `int()` truncates). -/
def get_available_capacity_pigs (t : Transport) (avg_pig_weight_kg : ℚ) : Int :=
  if avg_pig_weight_kg ≤ 0 then 0
  else pyInt (t.get_available_capacity_kg / avg_pig_weight_kg)

/-- `Transport.is_full`. -/
def is_full (t : Transport) : Bool :=
  t.current_load_kg ≥ t.capacity_tons * 1000 * (95 / 100)

/-- `Transport.can_use_hours`. -/
def can_use_hours (t : Transport) (hours_needed : ℚ) : Bool :=
  t.hours_used_this_week + hours_needed ≤ t.max_hours_per_week

/-- `Transport.load_pigs`: returns `(success, count loaded, state after)`. -/
def load_pigs (t : Transport) (pigs_count0 : Int) (avg_weight_kg : ℚ) :
    Bool × Int × Transport :=
  let weight_needed_kg0 : ℚ := pigs_count0 * avg_weight_kg
  let pigs_count : Int :=
    if weight_needed_kg0 > t.get_available_capacity_kg then
      t.get_available_capacity_pigs avg_weight_kg
    else pigs_count0
  let weight_needed_kg : ℚ :=
    if weight_needed_kg0 > t.get_available_capacity_kg then
      (t.get_available_capacity_pigs avg_weight_kg : ℚ) * avg_weight_kg
    else weight_needed_kg0
  if pigs_count = 0 then
    (false, 0, t)
  else
    (true, pigs_count,
      { t with
        current_load_kg := t.current_load_kg + weight_needed_kg
        pigs_aboard := t.pigs_aboard + pigs_count })

/-- `Transport.start_route`: returns the fresh `Route` and the state after. -/
def start_route (t : Transport) (route_id : String) (slaughterhouse_id : String) :
    Route × Transport :=
  let route : Route := { route_id := route_id, slaughterhouse_id := slaughterhouse_id }
  (route, { t with status := TransportStatus.LOADING, current_route := some route })

/-- `Transport.complete_route`: returns `(success, info?, state after)`. -/
def complete_route (t : Transport) (distance_km : ℚ) (time_hours : ℚ) :
    Bool × Option RouteInfo × Transport :=
  match t.current_route with
  | none => (false, none, t)
  | some r =>
    if ¬ t.can_use_hours time_hours then
      (false, none, t)
    else
      let trip_cost :=
        distance_km * t.cost_per_km * (t.current_load_kg / (t.capacity_tons * 1000))
      let r' : Route :=
        { r with
          total_distance_km := distance_km
          total_time_hours := time_hours
          pigs_loaded := t.pigs_aboard
          current_load_kg := t.current_load_kg
          trip_cost := trip_cost }
      let route_info : RouteInfo :=
        { route_id := r'.route_id
          farms_visited := r'.farms_visited
          distance_km := distance_km
          time_hours := time_hours
          pigs_delivered := t.pigs_aboard
          load_kg := t.current_load_kg
          cost := trip_cost
          capacity_utilized_pct := t.current_load_kg / (t.capacity_tons * 1000) * 100 }
      (true, some route_info,
        { t with
          routes_completed := t.routes_completed ++ [r']
          hours_used_this_week := t.hours_used_this_week + time_hours
          current_load_kg := 0
          pigs_aboard := 0
          current_route := none
          status := TransportStatus.AVAILABLE })

/-- `Transport.reset_weekly`. -/
def reset_weekly (t : Transport) : Transport :=
  { t with
    hours_used_this_week := 0
    routes_completed := []
    current_load_kg := 0
    pigs_aboard := 0
    status := TransportStatus.AVAILABLE }

end Transport

/-! ### Router (src/proyecto/src/simulation/Router.py)

The planner reads farms / slaughterhouses / transports and keeps its
bookkeeping in local dicts (`remaining_pigs`, `remaining_capacity_sh`,
`daily_hours`), modelled as association lists threaded through the
functions.  The entity collections are threaded as a `RouterEnv` so that
the planner's effect (or absence of effect) on them is part of the
embedding.  `Router._haversine_km` computes a great-circle distance with
`math.sin/cos/atan2`; transcendental float arithmetic is kept abstract as
the `hav` parameter of `RouterParams`, which is sound for every claim
below (none depends on concrete distance values). -/

/-- `PlannedStop` dataclass. -/
structure PlannedStop where
  farm : Farm
  pigs_to_pick : Int
  deriving Repr, DecidableEq

/-- `PlannedRoute` dataclass. -/
structure PlannedRoute where
  day : Int
  transport : Transport
  slaughterhouse : Slaughterhouse
  stops : List PlannedStop
  distance_km : ℚ
  time_hours : ℚ
  deriving Repr, DecidableEq

/-- The three entity collections the `Router` was constructed over. -/
structure RouterEnv where
  farms : List Farm
  slaughterhouses : List Slaughterhouse
  transports : List Transport
  deriving Repr, DecidableEq

/-- The `Router` configuration (constructor defaults), plus the abstract
great-circle distance function `hav lat1 lon1 lat2 lon2`. -/
structure RouterParams where
  speed_kmh : ℚ := 60
  min_market_weight_kg : ℚ := 105
  max_stops_per_route : Nat := 3
  max_hours_per_day : ℚ := 8
  hav : ℚ → ℚ → ℚ → ℚ → ℚ

/-- Python `dict.get(k, d)` on an association list. -/
def aGet {β : Type} (m : List (String × β)) (k : String) (d : β) : β :=
  ((m.find? (fun p => p.1 = k)).map (fun p => p.2)).getD d

/-- Python `m[k] = v` on an association list (replaces, else appends). -/
def aSet {β : Type} (m : List (String × β)) (k : String) (v : β) :
    List (String × β) :=
  if m.any (fun p => p.1 = k) then
    m.map (fun p => if p.1 = k then (k, v) else p)
  else
    m ++ [(k, v)]

/-- `Router._route_distance_km` for a nonempty path, from the previous
point `(prevLat, prevLon)` through `path` and back to the slaughterhouse. -/
def pathDist (hav : ℚ → ℚ → ℚ → ℚ → ℚ) (prevLat prevLon : ℚ)
    (path : List Farm) (shLat shLon : ℚ) : ℚ :=
  match path with
  | [] => hav prevLat prevLon shLat shLon
  | f :: rest => hav prevLat prevLon f.lat f.lon + pathDist hav f.lat f.lon rest shLat shLon

/-- `Router._route_distance_km`: slaughterhouse → farm₁ → … → farmₙ →
slaughterhouse; `0.0` for an empty path. -/
def route_distance_km (P : RouterParams) (sh : Slaughterhouse)
    (farms_path : List Farm) : ℚ :=
  match farms_path with
  | [] => 0
  | f :: rest => P.hav sh.lat sh.lon f.lat f.lon + pathDist P.hav f.lat f.lon rest sh.lat sh.lon

/-- `Router._select_candidate_farms`: eligible farms sorted by current
weight, heaviest first (Python's stable sort with `reverse=True`). -/
def select_candidate_farms (P : RouterParams) (env : RouterEnv)
    (current_day : Int) : List Farm :=
  let candidates := env.farms.filter
    (fun farm =>
      ¬ (farm.inventory_pigs ≤ 0) ∧ farm.can_deliver_today current_day ∧
        ¬ (farm.get_current_weight < P.min_market_weight_kg))
  candidates.mergeSort
    (fun a b => decide (b.get_current_weight ≤ a.get_current_weight))

/-- `Router._nearest_slaughterhouse_with_capacity` (initial best distance
`float("inf")`, strictly improved by every finite distance). -/
def nearest_slaughterhouse_with_capacity (P : RouterParams) (env : RouterEnv)
    (farm : Farm) (remaining_capacity_sh : List (String × Int)) :
    Option Slaughterhouse :=
  (env.slaughterhouses.foldl
    (fun best sh =>
      if aGet remaining_capacity_sh sh.slaughterhouse_id 0 ≤ 0 then best
      else
        let dist := P.hav farm.lat farm.lon sh.lat sh.lon
        match best with
        | none => some (sh, dist)
        | some (_, best_dist) =>
          if dist < best_dist then some (sh, dist) else best)
    none).map (fun p => p.1)

/-- `Router._has_any_remaining_pigs`. -/
def has_any_remaining_pigs (remaining_pigs : List (String × Int)) : Bool :=
  remaining_pigs.any (fun p => p.2 > 0)

/-- The `for farm in candidate_farms` scan inside the while-loop of
`Router._build_route_for_transport`: the feasible candidate with the
smallest incremental distance, with its `(incremental, new_distance,
pigs_possible)`.  Initial best incremental is `float("inf")`. -/
def bestCandidateScan (P : RouterParams) (current_day : Int)
    (candidate_farms : List Farm) (initial_sh : Slaughterhouse)
    (farms_in_route : List Farm) (remaining_capacity_kg : ℚ)
    (sh_remaining_cap : Int) (remaining_pigs : List (String × Int)) :
    Option (Farm × ℚ × ℚ × Int) :=
  candidate_farms.foldl
    (fun best farm =>
      if aGet remaining_pigs farm.farm_id 0 ≤ 0 then best
      else if farms_in_route.contains farm then best
      else if ¬ farm.can_deliver_today current_day then best
      else
        let avg_w := farm.get_current_weight
        if avg_w ≤ 0 then best
        else
          let max_pigs_by_truck := pyInt (remaining_capacity_kg / avg_w)
          if max_pigs_by_truck ≤ 0 then best
          else
            let pigs_possible :=
              min (min max_pigs_by_truck (aGet remaining_pigs farm.farm_id 0))
                sh_remaining_cap
            if pigs_possible ≤ 0 then best
            else
              let current_dist :=
                if farms_in_route = [] then 0
                else route_distance_km P initial_sh farms_in_route
              let new_dist :=
                if farms_in_route = [] then route_distance_km P initial_sh [farm]
                else route_distance_km P initial_sh (farms_in_route ++ [farm])
              let incremental := new_dist - current_dist
              match best with
              | none => some (farm, incremental, new_dist, pigs_possible)
              | some (_, best_incremental, _, _) =>
                if incremental < best_incremental then
                  some (farm, incremental, new_dist, pigs_possible)
                else best)
    none

/-- The `while len(farms_in_route) < max_stops_per_route` loop of
`Router._build_route_for_transport`.  The fuel argument is the number of
stops still allowed (`max_stops_per_route - len(farms_in_route)`; each
iteration adds exactly one farm).  Returns `none` for the loop's
`return None` (day-hours exceeded with no stop yet), otherwise the final
`(selected_stops, distance_km, sh_remaining_cap, remaining_pigs)`. -/
def routeLoop (P : RouterParams) (current_day : Int)
    (candidate_farms : List Farm) (initial_sh : Slaughterhouse)
    (current_hours_used : ℚ) :
    Nat → List Farm → List PlannedStop → ℚ → ℚ → Int → List (String × Int) →
    Option (List PlannedStop × ℚ × Int × List (String × Int))
  | 0, _, selected_stops, distance_km, _, sh_remaining_cap, remaining_pigs =>
    some (selected_stops, distance_km, sh_remaining_cap, remaining_pigs)
  | Nat.succ fuel, farms_in_route, selected_stops, distance_km,
      remaining_capacity_kg, sh_remaining_cap, remaining_pigs =>
    match bestCandidateScan P current_day candidate_farms initial_sh
        farms_in_route remaining_capacity_kg sh_remaining_cap remaining_pigs with
    | none => some (selected_stops, distance_km, sh_remaining_cap, remaining_pigs)
    | some (best_candidate, _, best_new_distance, best_pigs_to_pick) =>
      let new_time_hours :=
        if P.speed_kmh > 0 then best_new_distance / P.speed_kmh else 0
      if current_hours_used + new_time_hours > P.max_hours_per_day then
        if farms_in_route = [] then none
        else some (selected_stops, distance_km, sh_remaining_cap, remaining_pigs)
      else
        let farms_in_route' := farms_in_route ++ [best_candidate]
        let distance_km' := best_new_distance
        let sh_remaining_cap' := sh_remaining_cap - best_pigs_to_pick
        let remaining_capacity_kg' :=
          remaining_capacity_kg - best_pigs_to_pick * best_candidate.get_current_weight
        let remaining_pigs' :=
          aSet remaining_pigs best_candidate.farm_id
            (aGet remaining_pigs best_candidate.farm_id 0 - best_pigs_to_pick)
        let selected_stops' :=
          selected_stops ++ [{ farm := best_candidate, pigs_to_pick := best_pigs_to_pick }]
        if remaining_capacity_kg' ≤ 0 ∨ sh_remaining_cap' ≤ 0 then
          some (selected_stops', distance_km', sh_remaining_cap', remaining_pigs')
        else
          routeLoop P current_day candidate_farms initial_sh current_hours_used
            fuel farms_in_route' selected_stops' distance_km'
            remaining_capacity_kg' sh_remaining_cap' remaining_pigs'

/-- `Router._build_route_for_transport`: returns the updated working maps
`(remaining_pigs, remaining_capacity_sh)` together with the planned route,
or `none` when no feasible route exists. -/
def build_route_for_transport (P : RouterParams) (env : RouterEnv)
    (transport : Transport) (current_day : Int) (candidate_farms : List Farm)
    (remaining_pigs remaining_capacity_sh : List (String × Int))
    (current_hours_used : ℚ) :
    List (String × Int) × List (String × Int) × Option PlannedRoute :=
  let feasible_farms := candidate_farms.filter
    (fun f => aGet remaining_pigs f.farm_id 0 > 0 ∧ f.can_deliver_today current_day)
  match feasible_farms.mergeSort
      (fun a b => decide (b.get_current_weight ≤ a.get_current_weight)) with
  | [] => (remaining_pigs, remaining_capacity_sh, none)
  | seed_farm :: _ =>
    match nearest_slaughterhouse_with_capacity P env seed_farm remaining_capacity_sh with
    | none => (remaining_pigs, remaining_capacity_sh, none)
    | some initial_sh =>
      let sh_id := initial_sh.slaughterhouse_id
      let sh_remaining_cap := aGet remaining_capacity_sh sh_id 0
      if sh_remaining_cap ≤ 0 then (remaining_pigs, remaining_capacity_sh, none)
      else
        let truck_capacity_kg := transport.capacity_tons * 1000
        match routeLoop P current_day candidate_farms initial_sh current_hours_used
            P.max_stops_per_route [] [] 0 truck_capacity_kg sh_remaining_cap
            remaining_pigs with
        | none => (remaining_pigs, remaining_capacity_sh, none)
        | some (selected_stops, distance_km, sh_remaining_cap', remaining_pigs') =>
          if selected_stops = [] then
            (remaining_pigs', remaining_capacity_sh, none)
          else
            let time_hours :=
              if P.speed_kmh > 0 then distance_km / P.speed_kmh else 0
            (remaining_pigs',
              aSet remaining_capacity_sh sh_id sh_remaining_cap',
              some
                { day := current_day
                  transport := transport
                  slaughterhouse := initial_sh
                  stops := selected_stops
                  distance_km := distance_km
                  time_hours := time_hours })

/-- Working state of `Router.build_daily_plan`: the entity collections
(threaded so that any mutation of them would be visible) and the local
working maps plus the accumulated plan. -/
structure PlanSt where
  env : RouterEnv
  remaining_pigs : List (String × Int)
  remaining_capacity_sh : List (String × Int)
  daily_hours : List (String × ℚ)
  planned_routes : List PlannedRoute
  deriving Repr

/-- The `while daily_hours[tid] < max_hours_per_day and any_pigs_left()
and any_sh_capacity()` loop of `Router.build_daily_plan`, for one
transport.  `fuel` bounds the number of iterations; every iteration that
recurses has appended a route whose stops remove at least one pig from
`remaining_pigs`, so `1 + total candidate inventory` iterations suffice. -/
def transportLoop (P : RouterParams) (current_day : Int)
    (candidate_farms : List Farm) (transport : Transport) :
    Nat → PlanSt → PlanSt
  | 0, st => st
  | Nat.succ fuel, st =>
    let tid := transport.transport_id
    if aGet st.daily_hours tid 0 < P.max_hours_per_day ∧
        has_any_remaining_pigs st.remaining_pigs ∧
        st.remaining_capacity_sh.any (fun p => p.2 > 0) then
      match build_route_for_transport P st.env transport current_day
          candidate_farms st.remaining_pigs st.remaining_capacity_sh
          (aGet st.daily_hours tid 0) with
      | (remaining_pigs', remaining_capacity_sh', none) =>
        { st with
          remaining_pigs := remaining_pigs'
          remaining_capacity_sh := remaining_capacity_sh' }
      | (remaining_pigs', remaining_capacity_sh', some route) =>
        transportLoop P current_day candidate_farms transport fuel
          { st with
            remaining_pigs := remaining_pigs'
            remaining_capacity_sh := remaining_capacity_sh'
            planned_routes := st.planned_routes ++ [route]
            daily_hours :=
              aSet st.daily_hours tid (aGet st.daily_hours tid 0 + route.time_hours) }
    else st

/-- `Router.build_daily_plan`: the day's plan, together with the entity
collections as the planner leaves them. -/
def build_daily_plan (P : RouterParams) (env : RouterEnv) (current_day : Int) :
    RouterEnv × List PlannedRoute :=
  let candidate_farms := select_candidate_farms P env current_day
  if candidate_farms = [] ∨ env.transports = [] ∨ env.slaughterhouses = [] then
    (env, [])
  else
    let remaining_pigs :=
      candidate_farms.foldl (fun m f => aSet m f.farm_id f.inventory_pigs) []
    let remaining_capacity_sh :=
      env.slaughterhouses.foldl
        (fun m sh => aSet m sh.slaughterhouse_id sh.get_available_capacity) []
    let daily_hours :=
      env.transports.foldl (fun m t => aSet m t.transport_id (0 : ℚ)) []
    let fuel :=
      1 + candidate_farms.foldl (fun n f => n + f.inventory_pigs.toNat) 0
    let final :=
      env.transports.foldl
        (fun st transport =>
          transportLoop P current_day candidate_farms transport fuel st)
        { env := env
          remaining_pigs := remaining_pigs
          remaining_capacity_sh := remaining_capacity_sh
          daily_hours := daily_hours
          planned_routes := [] }
    (final.env, final.planned_routes)

/-! ### Simulator route execution (src/proyecto/src/simulation/Simulator.py)

`Simulator._execute_route` mutates, through references held by the
`PlannedRoute`, the farms of the stops, the assigned transport, the
assigned slaughterhouse, and the engine's event list.  The mutable
objects live in `ExecSt`; the stops name their farm by id, resolved in
the state's farm store (modelling Python's aliasing of the stop's farm
object into `self.farms`). -/

/-- Execution-relevant content of a planned stop: the Python `PlannedStop`
holds the `Farm` object itself; here the farm is named by its id. -/
structure ExecStop where
  farm_id : String
  pigs_to_pick : Int
  deriving Repr, DecidableEq

/-- Execution-relevant content of a `PlannedRoute` for `_execute_route`. -/
structure ExecRoute where
  stops : List ExecStop
  distance_km : ℚ
  time_hours : ℚ
  deriving Repr, DecidableEq

/-- The event dict appended to `Simulator._events` for a completed route. -/
structure Event where
  day : Int
  route_index : Int
  route_id : String
  transport_id : String
  transport_type : String
  slaughterhouse_id : String
  slaughterhouse_name : String
  farms_visited : List String
  pigs_delivered : Int
  avg_weight_kg : ℚ
  distance_km : ℚ
  time_hours : ℚ
  transport_cost : ℚ
  capacity_utilized_pct : Option ℚ
  revenue : ℚ
  penalty_applied : ℚ
  deriving Repr, DecidableEq

/-- The mutable objects `_execute_route` touches: the farm store, the
route's assigned transport and slaughterhouse, and the event log. -/
structure ExecSt where
  farms : List (String × Farm)
  transport : Transport
  slaughterhouse : Slaughterhouse
  events : List Event
  deriving Repr, DecidableEq

/-- Read a farm object from the store by id. -/
def storeGet (m : List (String × Farm)) (k : String) : Option Farm :=
  (m.find? (fun p => p.1 = k)).map (fun p => p.2)

/-- Write a farm object back to the store under its id. -/
def storeSet (m : List (String × Farm)) (k : String) (v : Farm) :
    List (String × Farm) :=
  m.map (fun p => if p.1 = k then (k, v) else p)

/-- One iteration of the `for stop in stops` loop of `_execute_route`,
over the accumulator `(farms, transport, total_pigs_loaded,
total_weight_kg, farms_visited_ids)`.  A stop whose farm id is absent
from the store is skipped (unreachable in Python, where the stop holds
the farm object itself). -/
def loadStep (day : Int)
    (acc : List (String × Farm) × Transport × Int × ℚ × List String)
    (stop : ExecStop) :
    List (String × Farm) × Transport × Int × ℚ × List String :=
  let (farms, t, total_pigs, total_w, visited) := acc
  match storeGet farms stop.farm_id with
  | none => (farms, t, total_pigs, total_w, visited)
  | some farm =>
    let current_weight := farm.get_current_weight
    let (success, farm') := farm.deliver_pigs stop.pigs_to_pick day
    let farms' := storeSet farms stop.farm_id farm'
    if ¬ success then
      (farms', t, total_pigs, total_w, visited)
    else
      let (load_ok, pigs_loaded, t') := t.load_pigs stop.pigs_to_pick current_weight
      if ¬ load_ok ∨ pigs_loaded ≤ 0 then
        (farms', t', total_pigs, total_w, visited)
      else
        (farms', t', total_pigs + pigs_loaded,
          total_w + pigs_loaded * current_weight, visited ++ [stop.farm_id])

/-- The `for stop in stops` loop of `_execute_route`: delivers from each
stop's farm and loads the vehicle. -/
def loadPhase (day : Int) (stops : List ExecStop)
    (farms0 : List (String × Farm)) (t0 : Transport) :
    List (String × Farm) × Transport × Int × ℚ × List String :=
  stops.foldl (loadStep day) (farms0, t0, 0, 0, [])

/-- `Simulator._execute_route`. -/
def execute_route (day : Int) (route_index : Int) (planned : ExecRoute)
    (st : ExecSt) : ExecSt :=
  if planned.stops = [] then st
  else
    let route_identifier := "day" ++ toString day ++ "_r" ++ toString route_index
    let (_route_obj, t1) :=
      st.transport.start_route route_identifier st.slaughterhouse.slaughterhouse_id
    let (farms', t2, total_pigs_loaded, total_weight_kg, farms_visited_ids) :=
      loadPhase day planned.stops st.farms t1
    if total_pigs_loaded ≤ 0 then
      -- "Nada se cargó realmente, limpiamos ruta"
      { st with
        farms := farms'
        transport :=
          { t2 with current_load_kg := 0, pigs_aboard := 0, current_route := none } }
    else
      let avg_weight := total_weight_kg / (total_pigs_loaded : ℚ)
      let (sh_ok, receipt_info, sh') :=
        st.slaughterhouse.receive_pigs total_pigs_loaded avg_weight
      if ¬ sh_ok then
        { st with farms := farms', transport := t2, slaughterhouse := sh' }
      else
        let (tr_ok, route_info, t3) :=
          t2.complete_route planned.distance_km planned.time_hours
        if ¬ tr_ok then
          { st with farms := farms', transport := t3, slaughterhouse := sh' }
        else
          let event : Event :=
            { day := day
              route_index := route_index
              route_id := route_identifier
              transport_id := st.transport.transport_id
              transport_type := st.transport.type
              slaughterhouse_id := st.slaughterhouse.slaughterhouse_id
              slaughterhouse_name := st.slaughterhouse.name
              farms_visited := farms_visited_ids
              pigs_delivered := total_pigs_loaded
              avg_weight_kg := avg_weight
              distance_km := planned.distance_km
              time_hours := planned.time_hours
              transport_cost := (route_info.map (fun i => i.cost)).getD 0
              capacity_utilized_pct := route_info.map (fun i => i.capacity_utilized_pct)
              revenue := (receipt_info.map (fun r => r.revenue)).getD 0
              penalty_applied := (receipt_info.map (fun r => r.penalty_applied)).getD 0 }
          { st with
            farms := farms'
            transport := t3
            slaughterhouse := sh'
            events := st.events ++ [event] }

/-! ## Theorems -/

/-- A concrete receipt used in counterexample states. -/
def sampleReceipt : Receipt :=
  { pigs_count := 3, avg_weight_kg := 110, total_kg_live := 330
    penalty_applied := 0, revenue := 561 }

/-- A concrete slaughterhouse with one receipt already in today's history. -/
def sampleShWithHistory : Slaughterhouse :=
  { slaughterhouse_id := "S1", name := "Esc 1", lat := 41, lon := 2
    capacity_per_day := 100, price_per_kg := 17 / 10
    penalty_15_min := 105, penalty_15_max := 115
    penalty_20_min := 100, penalty_20_max := 120
    pigs_received_today := 3, total_weight_received := 330
    daily_history := [sampleReceipt] }

/-- C3: `reset_daily_counter` zeroes `pigs_received_today` and
`total_weight_received` but leaves `daily_history` untouched; on a
slaughterhouse that received one delivery today, the history still holds
that receipt after the reset, contradicting the claim that the reset
leaves the history empty. -/
theorem reset_daily_counter_keeps_history :
    sampleShWithHistory.reset_daily_counter.pigs_received_today = 0 ∧
    sampleShWithHistory.reset_daily_counter.total_weight_received = 0 ∧
    sampleShWithHistory.reset_daily_counter.daily_history = [sampleReceipt] ∧
    sampleShWithHistory.reset_daily_counter.daily_history ≠ [] := by
  refine ⟨rfl, rfl, rfl, ?_⟩
  simp [Slaughterhouse.reset_daily_counter, sampleShWithHistory]

/-- C5: `can_deliver_today` is false on empty inventory, true when the
farm never delivered (negative sentinel), and otherwise compares 5-day
blocks of the current and last delivery day; a farm with stock that
delivered on day 0 is ineligible on days 1–4 and eligible on day 5. -/
theorem can_deliver_today_spec (f : Farm) (d : Int) :
    (f.inventory_pigs ≤ 0 → f.can_deliver_today d = false) ∧
    (0 < f.inventory_pigs → f.last_delivery_day < 0 →
      f.can_deliver_today d = true) ∧
    (0 < f.inventory_pigs → 0 ≤ f.last_delivery_day →
      (f.can_deliver_today d = true ↔
        Int.fdiv d 5 ≠ Int.fdiv f.last_delivery_day 5)) ∧
    (0 < f.inventory_pigs → f.last_delivery_day = 0 →
      (∀ d' : Int, 1 ≤ d' → d' ≤ 4 → f.can_deliver_today d' = false) ∧
        f.can_deliver_today 5 = true) := by
  refine ⟨?_, ?_, ?_, ?_⟩
  · intro h
    simp [Farm.can_deliver_today, h]
  · intro h1 h2
    simp [Farm.can_deliver_today, h1, h2]
  · intro h1 h2
    simp [Farm.can_deliver_today]
    omega
  · intro h1 h2
    constructor
    · intro d' hd1 hd2
      have e1 : Int.fdiv d' 5 = 0 := by
        rw [Int.fdiv_eq_ediv _ (by norm_num)]
        omega
      simp [Farm.can_deliver_today, h1, h2, e1]
    · have e5 : Int.fdiv 5 5 = 1 := by decide
      simp [Farm.can_deliver_today, h1, h2, e5]

/-- C7: `calculate_penalty` returns 20 % strictly outside the
`[penalty_20_min, penalty_20_max]` band (checked first), else 15 %
strictly outside `[penalty_15_min, penalty_15_max]`, else 0; with nested
bands, weights exactly on the 15 %-band boundary get 0, weights between
the bands get 15 %, and weights beyond the 20 %-band bounds get 20 %. -/
theorem calculate_penalty_spec (s : Slaughterhouse) (w : ℚ) :
    ((w < s.penalty_20_min ∨ w > s.penalty_20_max) →
      s.calculate_penalty w = 20 / 100) ∧
    (s.penalty_20_min ≤ w → w ≤ s.penalty_20_max →
      (w < s.penalty_15_min ∨ w > s.penalty_15_max) →
      s.calculate_penalty w = 15 / 100) ∧
    (s.penalty_20_min ≤ w → w ≤ s.penalty_20_max →
      s.penalty_15_min ≤ w → w ≤ s.penalty_15_max →
      s.calculate_penalty w = 0) ∧
    (s.penalty_20_min ≤ s.penalty_15_min → s.penalty_15_min ≤ s.penalty_15_max →
      s.penalty_15_max ≤ s.penalty_20_max →
      (s.calculate_penalty s.penalty_15_min = 0 ∧
        s.calculate_penalty s.penalty_15_max = 0 ∧
        (s.penalty_20_min ≤ w → w < s.penalty_15_min →
          s.calculate_penalty w = 15 / 100) ∧
        (s.penalty_15_max < w → w ≤ s.penalty_20_max →
          s.calculate_penalty w = 15 / 100) ∧
        (w < s.penalty_20_min → s.calculate_penalty w = 20 / 100) ∧
        (s.penalty_20_max < w → s.calculate_penalty w = 20 / 100))) := by
  unfold Slaughterhouse.calculate_penalty
  refine ⟨?_, ?_, ?_, ?_⟩
  · intro h
    simp [h]
  · intro h1 h2 h3
    rw [if_neg (by push_neg; exact ⟨h1, h2⟩), if_pos h3]
  · intro h1 h2 h3 h4
    rw [if_neg (by push_neg; exact ⟨h1, h2⟩),
      if_neg (by push_neg; exact ⟨h3, h4⟩)]
  · intro hn1 hn2 hn3
    refine ⟨?_, ?_, ?_, ?_, ?_, ?_⟩
    · rw [if_neg (by push_neg; exact ⟨hn1, by linarith⟩),
        if_neg (by push_neg; exact ⟨le_refl _, hn2⟩)]
    · rw [if_neg (by push_neg; exact ⟨by linarith, hn3⟩),
        if_neg (by push_neg; exact ⟨hn2, le_refl _⟩)]
    · intro h1 h2
      rw [if_neg (by push_neg; exact ⟨h1, by linarith⟩), if_pos (Or.inl h2)]
    · intro h1 h2
      rw [if_neg (by push_neg; exact ⟨by linarith, h2⟩), if_pos (Or.inr h1)]
    · intro h
      simp [h]
    · intro h
      simp [h]

/-- A concrete farm that has never delivered. -/
def sampleFreshFarm : Farm :=
  { farm_id := "F2", name := "Granja 2", lat := 42, lon := 1
    inventory_pigs := 40, avg_weight_kg := 110, growth_rate_kg_per_week := 6
    age_weeks := 20, price_per_kg := 17 / 10, consumption_pigs := 2
    capacity := 100 }

/-- A concrete farm with stock whose last delivery was on day 0. -/
def sampleFarmDelivered0 : Farm :=
  { farm_id := "F1", name := "Granja 1", lat := 41, lon := 1
    inventory_pigs := 40, avg_weight_kg := 110, growth_rate_kg_per_week := 6
    age_weeks := 20, price_per_kg := 17 / 10, consumption_pigs := 2
    capacity := 100, pigs_delivered_week := 10, last_delivery_day := 0
    weekly_inventory_history := [40] }

/-- Witness for C5 at a concrete farm that delivered on day 0. -/
theorem can_deliver_today_spec_witness :
    sampleFarmDelivered0.can_deliver_today 2 = false ∧
    sampleFarmDelivered0.can_deliver_today 5 = true := by
  have h := (can_deliver_today_spec sampleFarmDelivered0 2).2.2.2
    (by decide) (by decide)
  exact ⟨h.1 2 (by decide) (by decide), h.2⟩

/-- Witness for C7 at the sample slaughterhouse with bands
`[105,115]` / `[100,120]`. -/
theorem calculate_penalty_spec_witness :
    sampleShWithHistory.calculate_penalty 99 = 20 / 100 ∧
    sampleShWithHistory.calculate_penalty 104 = 15 / 100 ∧
    sampleShWithHistory.calculate_penalty 105 = 0 := by
  refine ⟨(calculate_penalty_spec sampleShWithHistory 99).1 (Or.inl (by decide)),
    (calculate_penalty_spec sampleShWithHistory 104).2.1 (by decide) (by decide)
      (Or.inl (by decide)),
    (calculate_penalty_spec sampleShWithHistory 105).2.2.1 (by decide) (by decide)
      (by decide) (by decide)⟩

/-- C6: `deliver_pigs` returns false and leaves the farm unchanged exactly
when `units ≤ 0`, `units > inventory`, or `can_deliver_today` is false;
otherwise it succeeds, moving `units` out of inventory, into the weekly
counter, and recording the delivery day (plus the history append the
Python body also performs). -/
theorem deliver_pigs_spec (f : Farm) (n d : Int) :
    (((f.deliver_pigs n d).1 = false ∧ (f.deliver_pigs n d).2 = f) ↔
      (n ≤ 0 ∨ n > f.inventory_pigs ∨ f.can_deliver_today d = false)) ∧
    (0 < n → n ≤ f.inventory_pigs → f.can_deliver_today d = true →
      f.deliver_pigs n d =
        (true,
          { f with
            inventory_pigs := f.inventory_pigs - n
            pigs_delivered_week := f.pigs_delivered_week + n
            last_delivery_day := d
            weekly_inventory_history :=
              f.weekly_inventory_history ++ [f.inventory_pigs - n] })) := by
  constructor
  · unfold Farm.deliver_pigs
    split_ifs with h1 h2 h3 <;> simp_all
  · intro h1 h2 h3
    unfold Farm.deliver_pigs
    rw [if_neg (by omega), if_neg (by omega), if_neg (by simp [h3])]

/-- Witness for C6: a successful delivery on the fresh farm. -/
theorem deliver_pigs_spec_witness :
    sampleFreshFarm.deliver_pigs 5 3 =
      (true,
        { sampleFreshFarm with
          inventory_pigs := sampleFreshFarm.inventory_pigs - 5
          pigs_delivered_week := sampleFreshFarm.pigs_delivered_week + 5
          last_delivery_day := 3
          weekly_inventory_history :=
            sampleFreshFarm.weekly_inventory_history ++
              [sampleFreshFarm.inventory_pigs - 5] }) :=
  (deliver_pigs_spec sampleFreshFarm 5 3).2 (by decide) (by decide) (by decide)

/-! Capacity invariant of the slaughterhouse (C2). -/

/-- The two operations the daily loop performs on a slaughterhouse. -/
inductive ShOp where
  | receive (pigs_count : Int) (avg_weight_kg : ℚ)
  | reset
  deriving Repr

/-- Apply one operation (`receive_pigs` keeping only the state,
or `reset_daily_counter`). -/
def ShOp.apply (s : Slaughterhouse) : ShOp → Slaughterhouse
  | .receive n w => (s.receive_pigs n w).2.2
  | .reset => s.reset_daily_counter

theorem receive_pigs_state_received (s : Slaughterhouse) (n : Int) (w : ℚ) :
    ((s.receive_pigs n w).2.2).pigs_received_today =
      if s.is_at_capacity then s.pigs_received_today
      else
        s.pigs_received_today +
          (if n > s.get_available_capacity then s.get_available_capacity else n) := by
  simp only [Slaughterhouse.receive_pigs]
  split_ifs <;> simp

theorem receive_pigs_capacity_const (s : Slaughterhouse) (n : Int) (w : ℚ) :
    ((s.receive_pigs n w).2.2).capacity_per_day = s.capacity_per_day := by
  unfold Slaughterhouse.receive_pigs
  split_ifs <;> rfl

theorem receive_pigs_preserves_le (s : Slaughterhouse) (n : Int) (w : ℚ)
    (h : s.pigs_received_today ≤ s.capacity_per_day) :
    ((s.receive_pigs n w).2.2).pigs_received_today ≤
      ((s.receive_pigs n w).2.2).capacity_per_day := by
  rw [receive_pigs_state_received, receive_pigs_capacity_const]
  unfold Slaughterhouse.is_at_capacity Slaughterhouse.get_available_capacity
  split_ifs with h1 h2 <;> simp_all
  omega

theorem shOp_apply_preserves (s : Slaughterhouse) (op : ShOp)
    (hcap : 0 ≤ s.capacity_per_day) (h : s.pigs_received_today ≤ s.capacity_per_day) :
    0 ≤ (ShOp.apply s op).capacity_per_day ∧
      (ShOp.apply s op).pigs_received_today ≤ (ShOp.apply s op).capacity_per_day := by
  cases op with
  | receive n w =>
    exact ⟨by rw [ShOp.apply, receive_pigs_capacity_const]; exact hcap,
      receive_pigs_preserves_le s n w h⟩
  | reset => exact ⟨hcap, hcap⟩

/-- C2: `receive_pigs` preserves `pigs_received_today ≤ capacity_per_day`
(a call that would exceed capacity is clipped to
`get_available_capacity()` before the counter is incremented), so the
invariant holds after every sequence of `receive_pigs` /
`reset_daily_counter` operations on a slaughterhouse with nonnegative
daily capacity. -/
theorem receive_pigs_capacity_invariant (s : Slaughterhouse) :
    (∀ n w, s.pigs_received_today ≤ s.capacity_per_day →
      ((s.receive_pigs n w).2.2).pigs_received_today ≤
        ((s.receive_pigs n w).2.2).capacity_per_day) ∧
    (∀ n w, s.is_at_capacity = false → n > s.get_available_capacity →
      ((s.receive_pigs n w).2.2).pigs_received_today =
        s.pigs_received_today + s.get_available_capacity) ∧
    (0 ≤ s.capacity_per_day → s.pigs_received_today ≤ s.capacity_per_day →
      ∀ ops : List ShOp,
        (ops.foldl ShOp.apply s).pigs_received_today ≤
          (ops.foldl ShOp.apply s).capacity_per_day) := by
  refine ⟨fun n w h => receive_pigs_preserves_le s n w h, ?_, ?_⟩
  · intro n w hc hclip
    rw [receive_pigs_state_received, hc, if_pos hclip]
    simp
  · intro hcap h ops
    induction ops generalizing s with
    | nil => exact h
    | cons op rest ih =>
      have step := shOp_apply_preserves s op hcap h
      exact ih (ShOp.apply s op) step.1 step.2

/-- Witness for C2: a clipping delivery, a reset, and a further delivery
keep the sample slaughterhouse within capacity. -/
theorem receive_pigs_capacity_invariant_witness :
    ([ShOp.receive 200 110, ShOp.reset, ShOp.receive 5 90].foldl
        ShOp.apply sampleShWithHistory).pigs_received_today ≤
      ([ShOp.receive 200 110, ShOp.reset, ShOp.receive 5 90].foldl
        ShOp.apply sampleShWithHistory).capacity_per_day :=
  (receive_pigs_capacity_invariant sampleShWithHistory).2.2 (by decide) (by decide)
    [ShOp.receive 200 110, ShOp.reset, ShOp.receive 5 90]

/-- The receipt `receive_pigs` books for a zero-unit delivery. -/
def zeroReceipt (s : Slaughterhouse) (w : ℚ) : Receipt :=
  { pigs_count := 0, avg_weight_kg := w, total_kg_live := 0
    penalty_applied := s.calculate_penalty w, revenue := 0 }

/-- C10: below capacity, `receive_pigs` with 0 units succeeds, appends a
zero-unit receipt (zero mass, zero revenue) to the history and leaves
both counters unchanged; `receive_pigs` fails exactly when the
slaughterhouse is already at capacity. -/
theorem receive_pigs_zero_units (s : Slaughterhouse) (w : ℚ) :
    (s.pigs_received_today < s.capacity_per_day →
      (s.receive_pigs 0 w).1 = true ∧
      (s.receive_pigs 0 w).2.1 = some (zeroReceipt s w) ∧
      ((s.receive_pigs 0 w).2.2).pigs_received_today = s.pigs_received_today ∧
      ((s.receive_pigs 0 w).2.2).total_weight_received = s.total_weight_received ∧
      ((s.receive_pigs 0 w).2.2).daily_history =
        s.daily_history ++ [zeroReceipt s w]) ∧
    (∀ n, ((s.receive_pigs n w).1 = false ↔ s.is_at_capacity = true)) := by
  constructor
  · intro h
    have hc : s.is_at_capacity = false := by
      unfold Slaughterhouse.is_at_capacity
      simp
      omega
    have hnoclip : ¬ ((0 : Int) > s.get_available_capacity) := by
      unfold Slaughterhouse.get_available_capacity
      omega
    unfold Slaughterhouse.receive_pigs
    rw [hc]
    simp [hnoclip, zeroReceipt]
  · intro n
    unfold Slaughterhouse.receive_pigs
    split_ifs with hc <;> simp [hc]

/-- Witness for C10: the sample slaughterhouse is below capacity and a
zero-unit delivery is booked as a success. -/
theorem receive_pigs_zero_units_witness :
    (sampleShWithHistory.receive_pigs 0 110).1 = true ∧
    (sampleShWithHistory.receive_pigs 0 110).2.1 =
      some (zeroReceipt sampleShWithHistory 110) ∧
    ((sampleShWithHistory.receive_pigs 0 110).2.2).pigs_received_today =
      sampleShWithHistory.pigs_received_today ∧
    ((sampleShWithHistory.receive_pigs 0 110).2.2).total_weight_received =
      sampleShWithHistory.total_weight_received ∧
    ((sampleShWithHistory.receive_pigs 0 110).2.2).daily_history =
      sampleShWithHistory.daily_history ++ [zeroReceipt sampleShWithHistory 110] :=
  (receive_pigs_zero_units sampleShWithHistory 110).1 (by decide)

/-- A concrete route attached to the sample transport. -/
def sampleRoute0 : Route :=
  { route_id := "day0_r0", slaughterhouse_id := "S1" }

/-- A concrete loaded transport with an active route. -/
def sampleTransportActive : Transport :=
  { transport_id := "T1", type := "camion_grande", capacity_tons := 5
    cost_per_km := 12 / 10, max_hours_per_week := 40, fixed_weekly_cost := 500
    current_load_kg := 4400, pigs_aboard := 40
    status := TransportStatus.LOADING, current_route := some sampleRoute0
    hours_used_this_week := 10 }

/-- C8: `complete_route` fails without mutation when no route is active or
the weekly hour budget would be exceeded; on success the trip cost scales
with fractional payload utilisation, the route is archived, the week's
hours advance (staying within budget) and the vehicle is emptied and made
AVAILABLE. -/
theorem complete_route_spec (t : Transport) (d time : ℚ) :
    (t.current_route = none → t.complete_route d time = (false, none, t)) ∧
    (t.can_use_hours time = false → t.complete_route d time = (false, none, t)) ∧
    (∀ r, t.current_route = some r → t.can_use_hours time = true →
      t.complete_route d time =
        (true,
          some
            { route_id := r.route_id, farms_visited := r.farms_visited
              distance_km := d, time_hours := time
              pigs_delivered := t.pigs_aboard, load_kg := t.current_load_kg
              cost := d * t.cost_per_km * (t.current_load_kg / (t.capacity_tons * 1000))
              capacity_utilized_pct := t.current_load_kg / (t.capacity_tons * 1000) * 100 },
          { t with
            routes_completed := t.routes_completed ++
              [{ r with
                 total_distance_km := d, total_time_hours := time
                 pigs_loaded := t.pigs_aboard, current_load_kg := t.current_load_kg
                 trip_cost :=
                   d * t.cost_per_km * (t.current_load_kg / (t.capacity_tons * 1000)) }]
            hours_used_this_week := t.hours_used_this_week + time
            current_load_kg := 0, pigs_aboard := 0, current_route := none
            status := TransportStatus.AVAILABLE }) ∧
      ((t.complete_route d time).2.2).hours_used_this_week ≤ t.max_hours_per_week) := by
  refine ⟨?_, ?_, ?_⟩
  · intro h
    unfold Transport.complete_route
    rw [h]
  · intro h
    unfold Transport.complete_route
    cases hr : t.current_route with
    | none => rfl
    | some r => simp [h]
  · intro r hr hh
    constructor
    · unfold Transport.complete_route
      rw [hr]
      simp [hh]
    · have hle : t.hours_used_this_week + time ≤ t.max_hours_per_week := by
        have h' := hh
        unfold Transport.can_use_hours at h'
        exact of_decide_eq_true h'
      unfold Transport.complete_route
      rw [hr]
      simp [hh, hle]

/-- Witness for C8: completing the active route on the sample transport. -/
theorem complete_route_spec_witness :
    sampleTransportActive.complete_route 60 1 =
      (true,
        some
          { route_id := sampleRoute0.route_id
            farms_visited := sampleRoute0.farms_visited
            distance_km := 60, time_hours := 1
            pigs_delivered := sampleTransportActive.pigs_aboard
            load_kg := sampleTransportActive.current_load_kg
            cost := 60 * sampleTransportActive.cost_per_km *
              (sampleTransportActive.current_load_kg /
                (sampleTransportActive.capacity_tons * 1000))
            capacity_utilized_pct := sampleTransportActive.current_load_kg /
              (sampleTransportActive.capacity_tons * 1000) * 100 },
        { sampleTransportActive with
          routes_completed := sampleTransportActive.routes_completed ++
            [{ sampleRoute0 with
               total_distance_km := 60, total_time_hours := 1
               pigs_loaded := sampleTransportActive.pigs_aboard
               current_load_kg := sampleTransportActive.current_load_kg
               trip_cost := 60 * sampleTransportActive.cost_per_km *
                 (sampleTransportActive.current_load_kg /
                   (sampleTransportActive.capacity_tons * 1000)) }]
          hours_used_this_week := sampleTransportActive.hours_used_this_week + 1
          current_load_kg := 0, pigs_aboard := 0, current_route := none
          status := TransportStatus.AVAILABLE }) :=
  ((complete_route_spec sampleTransportActive 60 1).2.2 sampleRoute0 rfl
    (by norm_num [Transport.can_use_hours, sampleTransportActive])).1

/-! Execution of a planned route (C4, C9). -/

theorem load_pigs_preserves_route (t : Transport) (n : Int) (w : ℚ) :
    ((t.load_pigs n w).2.2).status = t.status ∧
      ((t.load_pigs n w).2.2).current_route = t.current_route := by
  unfold Transport.load_pigs
  dsimp only
  split_ifs <;> exact ⟨rfl, rfl⟩

theorem loadStep_preserves_route (day : Int)
    (acc : List (String × Farm) × Transport × Int × ℚ × List String)
    (stop : ExecStop) :
    ((loadStep day acc stop).2.1).status = (acc.2.1).status ∧
      ((loadStep day acc stop).2.1).current_route = (acc.2.1).current_route := by
  obtain ⟨farms, t, total, tw, vis⟩ := acc
  unfold loadStep
  dsimp only
  cases hg : storeGet farms stop.farm_id with
  | none => exact ⟨rfl, rfl⟩
  | some farm =>
    rcases hd : farm.deliver_pigs stop.pigs_to_pick day with ⟨success, farm'⟩
    simp only [hd]
    cases success with
    | false => exact ⟨rfl, rfl⟩
    | true =>
      rcases hl : t.load_pigs stop.pigs_to_pick farm.get_current_weight
        with ⟨ok, cnt, t'⟩
      have hp := load_pigs_preserves_route t stop.pigs_to_pick farm.get_current_weight
      rw [hl] at hp
      simp only [hl]
      split_ifs <;> first
        | exact ⟨rfl, rfl⟩
        | exact ⟨hp.1, hp.2⟩

theorem loadPhase_foldl_preserves_route (day : Int) (stops : List ExecStop) :
    ∀ acc : List (String × Farm) × Transport × Int × ℚ × List String,
      ((stops.foldl (loadStep day) acc).2.1).status = (acc.2.1).status ∧
        ((stops.foldl (loadStep day) acc).2.1).current_route =
          (acc.2.1).current_route := by
  induction stops with
  | nil => intro acc; exact ⟨rfl, rfl⟩
  | cons stop rest ih =>
    intro acc
    rw [List.foldl_cons]
    refine ⟨?_, ?_⟩
    · rw [(ih (loadStep day acc stop)).1, (loadStep_preserves_route day acc stop).1]
    · rw [(ih (loadStep day acc stop)).2, (loadStep_preserves_route day acc stop).2]

/-- Amended C4: when no unit at all was loaded across a nonempty list of
stops, `_execute_route` rolls the vehicle's load, units aboard and active
route back to empty and appends no event — but it leaves the status as
LOADING (set by `start_route`), not AVAILABLE. -/
theorem execute_route_zero_loaded (day route_index : Int) (planned : ExecRoute)
    (st : ExecSt) (hne : planned.stops ≠ []) :
    ∀ farms2 t2 total tw vis,
      loadPhase day planned.stops st.farms
        ((st.transport.start_route
          ("day" ++ toString day ++ "_r" ++ toString route_index)
          st.slaughterhouse.slaughterhouse_id).2) = (farms2, t2, total, tw, vis) →
      total ≤ 0 →
      (execute_route day route_index planned st).transport.current_load_kg = 0 ∧
      (execute_route day route_index planned st).transport.pigs_aboard = 0 ∧
      (execute_route day route_index planned st).transport.current_route = none ∧
      (execute_route day route_index planned st).transport.status =
        TransportStatus.LOADING ∧
      (execute_route day route_index planned st).events = st.events ∧
      (execute_route day route_index planned st).slaughterhouse =
        st.slaughterhouse ∧
      (execute_route day route_index planned st).farms = farms2 := by
  intro farms2 t2 total tw vis heq hz
  have hstat : t2.status = TransportStatus.LOADING := by
    have h := (loadPhase_foldl_preserves_route day planned.stops
      (st.farms,
        (st.transport.start_route
          ("day" ++ toString day ++ "_r" ++ toString route_index)
          st.slaughterhouse.slaughterhouse_id).2, 0, 0, [])).1
    rw [show planned.stops.foldl (loadStep day)
        (st.farms,
          (st.transport.start_route
            ("day" ++ toString day ++ "_r" ++ toString route_index)
            st.slaughterhouse.slaughterhouse_id).2, 0, 0, []) =
        (farms2, t2, total, tw, vis) from heq] at h
    exact h
  unfold execute_route
  rw [if_neg hne]
  simp only [Transport.start_route] at heq ⊢
  simp only [heq]
  rw [if_pos hz]
  exact ⟨rfl, rfl, rfl, hstat, rfl, rfl, rfl⟩

/-- A concrete slaughterhouse with remaining capacity. -/
def cexSh : Slaughterhouse :=
  { slaughterhouse_id := "S2", name := "Esc 2", lat := 41, lon := 2
    capacity_per_day := 50, price_per_kg := 17 / 10
    penalty_15_min := 105, penalty_15_max := 115
    penalty_20_min := 100, penalty_20_max := 120 }

/-- A concrete idle transport. -/
def cexTransport : Transport :=
  { transport_id := "T2", type := "camion_mediano", capacity_tons := 5
    cost_per_km := 1, max_hours_per_week := 40, fixed_weekly_cost := 500 }

/-- A planned route whose only stop asks for 0 pigs, so nothing loads. -/
def cexPlanned : ExecRoute :=
  { stops := [{ farm_id := "F2", pigs_to_pick := 0 }]
    distance_km := 30, time_hours := 1 / 2 }

/-- Execution state for the zero-load route. -/
def cexSt : ExecSt :=
  { farms := [("F2", sampleFreshFarm)], transport := cexTransport
    slaughterhouse := cexSh, events := [] }

/-- Counterexample to C4 as stated: executing a route on which zero units
load rolls the vehicle's load/units/route back to empty and emits no
event, but the status is left LOADING — not AVAILABLE as claimed. -/
theorem execute_route_zero_loaded_cex :
    (execute_route 0 0 cexPlanned cexSt).transport.status =
      TransportStatus.LOADING ∧
    ¬ (execute_route 0 0 cexPlanned cexSt).transport.status =
      TransportStatus.AVAILABLE ∧
    (execute_route 0 0 cexPlanned cexSt).transport.current_load_kg = 0 ∧
    (execute_route 0 0 cexPlanned cexSt).transport.pigs_aboard = 0 ∧
    (execute_route 0 0 cexPlanned cexSt).transport.current_route = none ∧
    (execute_route 0 0 cexPlanned cexSt).events = [] := by
  refine ⟨by decide, by decide, by decide, by decide, by decide, by decide⟩

/-- Witness for the amended C4 at the concrete zero-load route. -/
theorem execute_route_zero_loaded_witness :
    (execute_route 0 0 cexPlanned cexSt).transport.current_load_kg = 0 ∧
    (execute_route 0 0 cexPlanned cexSt).transport.pigs_aboard = 0 ∧
    (execute_route 0 0 cexPlanned cexSt).transport.current_route = none ∧
    (execute_route 0 0 cexPlanned cexSt).transport.status =
      TransportStatus.LOADING ∧
    (execute_route 0 0 cexPlanned cexSt).events = cexSt.events ∧
    (execute_route 0 0 cexPlanned cexSt).slaughterhouse = cexSt.slaughterhouse ∧
    (execute_route 0 0 cexPlanned cexSt).farms =
      (loadPhase 0 cexPlanned.stops cexSt.farms
        ((cexSt.transport.start_route
          ("day" ++ toString (0 : Int) ++ "_r" ++ toString (0 : Int))
          cexSt.slaughterhouse.slaughterhouse_id).2)).1 :=
  execute_route_zero_loaded 0 0 cexPlanned cexSt (by decide) _ _ _ _ _ rfl
    (by decide)

/-- C9: when the slaughterhouse rejects the delivery (already at its daily
capacity), `_execute_route` returns without resetting the vehicle: the
post-loading farms/transport state is kept verbatim (status LOADING, the
route still attached, the load and units still aboard) and no event is
appended; a later `start_route` on the same vehicle replaces the attached
route without clearing the load, and a later `complete_route` charges a
cost and utilisation computed from that leftover `current_load_kg`. -/
theorem execute_route_receive_failure (day route_index : Int)
    (planned : ExecRoute) (st : ExecSt) (hne : planned.stops ≠ [])
    (hcap : st.slaughterhouse.is_at_capacity = true) :
    ∀ farms2 t2 total tw vis,
      loadPhase day planned.stops st.farms
        ((st.transport.start_route
          ("day" ++ toString day ++ "_r" ++ toString route_index)
          st.slaughterhouse.slaughterhouse_id).2) = (farms2, t2, total, tw, vis) →
      0 < total →
      execute_route day route_index planned st =
        { st with farms := farms2, transport := t2 } ∧
      (execute_route day route_index planned st).events = st.events ∧
      t2.status = TransportStatus.LOADING ∧
      (∃ rt, t2.current_route = some rt) ∧
      (∀ rid sid,
        ((t2.start_route rid sid).2).current_load_kg = t2.current_load_kg ∧
        ((t2.start_route rid sid).2).pigs_aboard = t2.pigs_aboard ∧
        ((t2.start_route rid sid).2).current_route =
          some { route_id := rid, slaughterhouse_id := sid }) ∧
      (∀ dist hrs, t2.can_use_hours hrs = true →
        ((t2.complete_route dist hrs).2.1).map (fun i => i.cost) =
          some (dist * t2.cost_per_km *
            (t2.current_load_kg / (t2.capacity_tons * 1000))) ∧
        ((t2.complete_route dist hrs).2.1).map (fun i => i.capacity_utilized_pct) =
          some (t2.current_load_kg / (t2.capacity_tons * 1000) * 100)) := by
  intro farms2 t2 total tw vis heq hpos
  have hpres := loadPhase_foldl_preserves_route day planned.stops
    (st.farms,
      (st.transport.start_route
        ("day" ++ toString day ++ "_r" ++ toString route_index)
        st.slaughterhouse.slaughterhouse_id).2, 0, 0, [])
  rw [show planned.stops.foldl (loadStep day)
      (st.farms,
        (st.transport.start_route
          ("day" ++ toString day ++ "_r" ++ toString route_index)
          st.slaughterhouse.slaughterhouse_id).2, 0, 0, []) =
      (farms2, t2, total, tw, vis) from heq] at hpres
  have hstat : t2.status = TransportStatus.LOADING := hpres.1
  have hrt : ∃ rt, t2.current_route = some rt := ⟨_, hpres.2⟩
  have hmain : execute_route day route_index planned st =
      { st with farms := farms2, transport := t2 } := by
    unfold execute_route
    rw [if_neg hne]
    simp only [Transport.start_route] at heq ⊢
    simp only [heq]
    rw [if_neg (by omega)]
    simp only [Slaughterhouse.receive_pigs, hcap]
    rfl
  refine ⟨hmain, by rw [hmain], hstat, hrt, fun rid sid => ⟨rfl, rfl, rfl⟩, ?_⟩
  intro dist hrs hcan
  obtain ⟨rt, hrt2⟩ := hrt
  unfold Transport.complete_route
  rw [hrt2]
  simp [hcan]

/-- A concrete slaughterhouse already at its daily capacity. -/
def cex9Sh : Slaughterhouse :=
  { slaughterhouse_id := "S3", name := "Esc 3", lat := 41, lon := 2
    capacity_per_day := 50, price_per_kg := 17 / 10
    penalty_15_min := 105, penalty_15_max := 115
    penalty_20_min := 100, penalty_20_max := 120
    pigs_received_today := 50 }

/-- A planned route picking 5 pigs from the fresh farm. -/
def cex9Planned : ExecRoute :=
  { stops := [{ farm_id := "F2", pigs_to_pick := 5 }]
    distance_km := 30, time_hours := 1 / 2 }

/-- Execution state whose destination is already full. -/
def cex9St : ExecSt :=
  { farms := [("F2", sampleFreshFarm)], transport := cexTransport
    slaughterhouse := cex9Sh, events := [] }

/-- The vehicle state right after `start_route` for the full-destination run. -/
def cex9T1 : Transport :=
  (cex9St.transport.start_route
    ("day" ++ toString (0 : Int) ++ "_r" ++ toString (0 : Int))
    cex9St.slaughterhouse.slaughterhouse_id).2

/-- The result of the loading loop for the full-destination run. -/
def cex9Load : List (String × Farm) × Transport × Int × ℚ × List String :=
  loadPhase 0 cex9Planned.stops cex9St.farms cex9T1

theorem cex9Load_total_pos : 0 < cex9Load.2.2.1 := by
  norm_num [cex9Load, loadPhase, loadStep, cex9Planned, cex9St, cex9T1,
    storeGet, storeSet, Farm.deliver_pigs, Farm.can_deliver_today,
    Farm.get_current_weight, sampleFreshFarm, Transport.load_pigs,
    Transport.get_available_capacity_kg, Transport.get_available_capacity_pigs,
    Transport.start_route, cexTransport, pyInt, List.find?]

/-- Witness for C9 at the concrete full-destination run. -/
theorem execute_route_receive_failure_witness :
    execute_route 0 0 cex9Planned cex9St =
      { cex9St with farms := cex9Load.1, transport := cex9Load.2.1 } ∧
    (execute_route 0 0 cex9Planned cex9St).events = cex9St.events ∧
    cex9Load.2.1.status = TransportStatus.LOADING ∧
    (∃ rt, cex9Load.2.1.current_route = some rt) ∧
    (∀ rid sid,
      ((cex9Load.2.1.start_route rid sid).2).current_load_kg =
        cex9Load.2.1.current_load_kg ∧
      ((cex9Load.2.1.start_route rid sid).2).pigs_aboard =
        cex9Load.2.1.pigs_aboard ∧
      ((cex9Load.2.1.start_route rid sid).2).current_route =
        some { route_id := rid, slaughterhouse_id := sid }) ∧
    (∀ dist hrs, cex9Load.2.1.can_use_hours hrs = true →
      ((cex9Load.2.1.complete_route dist hrs).2.1).map (fun i => i.cost) =
        some (dist * cex9Load.2.1.cost_per_km *
          (cex9Load.2.1.current_load_kg / (cex9Load.2.1.capacity_tons * 1000))) ∧
      ((cex9Load.2.1.complete_route dist hrs).2.1).map
          (fun i => i.capacity_utilized_pct) =
        some (cex9Load.2.1.current_load_kg /
          (cex9Load.2.1.capacity_tons * 1000) * 100)) :=
  execute_route_receive_failure 0 0 cex9Planned cex9St (by decide) (by decide)
    cex9Load.1 cex9Load.2.1 cex9Load.2.2.1 cex9Load.2.2.2.1 cex9Load.2.2.2.2
    rfl cex9Load_total_pos

/-! The planner mutates no entity (C1). -/

theorem transportLoop_env (P : RouterParams) (d : Int) (cf : List Farm)
    (tr : Transport) :
    ∀ (fuel : Nat) (st : PlanSt), (transportLoop P d cf tr fuel st).env = st.env := by
  intro fuel
  induction fuel with
  | zero => intro st; rfl
  | succ n ih =>
    intro st
    unfold transportLoop
    dsimp only
    split
    · split
      · rfl
      · rw [ih]
    · rfl

theorem foldl_transportLoop_env (P : RouterParams) (d : Int) (cf : List Farm)
    (fuel : Nat) :
    ∀ (ts : List Transport) (st : PlanSt),
      (ts.foldl (fun st tr => transportLoop P d cf tr fuel st) st).env = st.env := by
  intro ts
  induction ts with
  | nil => intro st; rfl
  | cons t rest ih =>
    intro st
    rw [List.foldl_cons, ih, transportLoop_env]

/-- C1: `build_daily_plan` returns its day plan leaving every farm,
slaughterhouse and transport exactly as it found them — the planner's
capacity bookkeeping lives only in the working maps of its `PlanSt`,
which are discarded here. -/
theorem build_daily_plan_no_mutation (P : RouterParams) (env : RouterEnv)
    (d : Int) :
    (build_daily_plan P env d).1 = env := by
  unfold build_daily_plan
  dsimp only
  split_ifs with h
  · rfl
  · exact foldl_transportLoop_env P d _ _ env.transports _

end Porcs
